import Mathlib

/-!
Verification of the format-detection (Probe), dispatch and ID3v2 write-placement
logic of the moosicbox_lofty audio-metadata library.

Bytes are modelled as natural numbers below 256, byte streams as `List Nat`,
and a seekable reader as a pair of stream contents and cursor position.
Functions present in `src/` (`Probe::guess_file_type`, `Probe::guess_inner`,
`Probe::check_mpeg_or_aac`, `Probe::read`, `ParseOptions`, `write_id3v2`,
`create_tag`, `create_tag_header`, the allocation-limit test's byte builders)
are translated directly from the source.  Collaborators that the source calls
but whose definitions are not part of the source snapshot
(`FileType::from_buffer_inner`, `search_for_frame_sync`, `find_id3v2`,
`write_to_chunk_file`, the MPEG/ID3v2 frame reader, synchsafe helpers) are
modelled from the specification and marked as such in their doc comments.
-/

deriving instance DecidableEq for Except

namespace Lofty

/-! ## Byte-level utilities -/

/-- Bytes of interest extracted from a byte list: `(l.drop i).take n`. -/
def bytesAt (l : List Nat) (i n : Nat) : List Nat :=
  (l.drop i).take n

/-- Modelled from the spec: decoding of a 28-bit synchsafe integer from four
big-endian bytes, 7 usable bits per byte (`SynchsafeInteger::unsynch`,
not part of the source snapshot). -/
def unsynch4 (bs : List Nat) : Nat :=
  ((bs.getD 0 0 &&& 0x7F) <<< 21) |||
  ((bs.getD 1 0 &&& 0x7F) <<< 14) |||
  ((bs.getD 2 0 &&& 0x7F) <<< 7) |||
  (bs.getD 3 0 &&& 0x7F)

/-- Modelled from the spec: encoding of a value below 2^28 as a four-byte
synchsafe integer, bit 7 of each byte clear (`SynchsafeInteger::synch` /
`synch_u32`, not part of the source snapshot); values of 2^28 or more are
rejected. -/
def synch_u32 (n : Nat) : Option (List Nat) :=
  if n < 0x10000000 then
    some [(n >>> 21) &&& 0x7F, (n >>> 14) &&& 0x7F, (n >>> 7) &&& 0x7F, n &&& 0x7F]
  else
    none

/-- Byte order used by the chunk-file writer type parameter. -/
inductive Endian
  | little
  | big
deriving DecidableEq

/-- Encode a 32-bit value in the given byte order. -/
def encodeU32 (e : Endian) (n : Nat) : List Nat :=
  match e with
  | .little => [n % 256, n / 256 % 256, n / 65536 % 256, n / 16777216 % 256]
  | .big => [n / 16777216 % 256, n / 65536 % 256, n / 256 % 256, n % 256]

/-- Decode a 32-bit value in the given byte order. -/
def decodeU32 (e : Endian) (bs : List Nat) : Nat :=
  match e with
  | .little => bs.getD 0 0 + bs.getD 1 0 * 256 + bs.getD 2 0 * 65536 + bs.getD 3 0 * 16777216
  | .big => bs.getD 3 0 + bs.getD 2 0 * 256 + bs.getD 1 0 * 65536 + bs.getD 0 0 * 16777216

/-! ## FileType and content classification -/

/-- The closed enumeration of supported container kinds (`FileType`). -/
inductive FileType
  | Aac
  | Aiff
  | Ape
  | Flac
  | Mpeg
  | Opus
  | Vorbis
  | Speex
  | Mp4
  | Mpc
  | Wav
  | WavPack
  | Custom (c : String)
deriving DecidableEq

/-- Result of the 36-byte magic classification (`FileTypeGuessResult`). -/
inductive FileTypeGuessResult
  | Determined (ft : FileType)
  | MaybePrecededById3 (id3Len : Nat)
  | MaybePrecededByJunk
  | Unknown
deriving DecidableEq

/-- Modelled from the spec: the fixed magic-number table
(`FileType::quick_type_guess`, not part of the source snapshot).
`"MAC "` prefix, `"fLaC"`, `"MPCK"`/`"MP+"` prefix, `"OggS"` with the codec id
examined at the page offset, `"RIFF"…"WAVE"`, `"FORM"…"AIFF"|"AIFC"`,
an ISO-BMFF `ftyp` box at offset 4 with a known major brand, and `"wvpk"`. -/
def quick_type_guess (buf : List Nat) : Option FileType :=
  if buf.take 3 = [0x4D, 0x41, 0x43] then some .Ape
  else if buf.take 4 = [0x66, 0x4C, 0x61, 0x43] then some .Flac
  else if buf.take 4 = [0x4D, 0x50, 0x43, 0x4B] ∨ buf.take 3 = [0x4D, 0x50, 0x2B] then some .Mpc
  else if buf.take 4 = [0x4F, 0x67, 0x67, 0x53] then
    (if bytesAt buf 29 6 = [0x76, 0x6F, 0x72, 0x62, 0x69, 0x73] then some .Vorbis
     else if bytesAt buf 28 8 = [0x4F, 0x70, 0x75, 0x73, 0x48, 0x65, 0x61, 0x64] then some .Opus
     else if bytesAt buf 28 8 = [0x53, 0x70, 0x65, 0x65, 0x78, 0x20, 0x20, 0x20] then some .Speex
     else none)
  else if buf.take 4 = [0x52, 0x49, 0x46, 0x46] ∧ bytesAt buf 8 4 = [0x57, 0x41, 0x56, 0x45] then
    some .Wav
  else if buf.take 4 = [0x46, 0x4F, 0x52, 0x4D] ∧
      (bytesAt buf 8 4 = [0x41, 0x49, 0x46, 0x46] ∨ bytesAt buf 8 4 = [0x41, 0x49, 0x46, 0x43]) then
    some .Aiff
  else if bytesAt buf 4 4 = [0x66, 0x74, 0x79, 0x70] ∧
      (bytesAt buf 8 4 ∈ [[0x4D, 0x34, 0x41, 0x20], [0x4D, 0x34, 0x42, 0x20],
        [0x4D, 0x34, 0x50, 0x20], [0x4D, 0x34, 0x56, 0x20], [0x69, 0x73, 0x6F, 0x6D],
        [0x69, 0x73, 0x6F, 0x32], [0x6D, 0x70, 0x34, 0x31], [0x6D, 0x70, 0x34, 0x32],
        [0x61, 0x76, 0x63, 0x31]]) then
    some .Mp4
  else if buf.take 4 = [0x77, 0x76, 0x70, 0x6B] then some .WavPack
  else none

/-- Modelled from the spec: classification of the 36-byte sniff buffer
(`FileType::from_buffer_inner`, not part of the source snapshot).  An empty
buffer is unclassifiable; a magic match is `Determined`; a buffer opening with
an `"ID3"` header of at least 10 bytes records the 28-bit synchsafe tag length
from bytes 6..10; everything else may merely be preceded by junk. -/
def from_buffer_inner (buf : List Nat) : FileTypeGuessResult :=
  if buf = [] then .Unknown
  else
    match quick_type_guess buf with
    | some ft => .Determined ft
    | none =>
      if 10 ≤ buf.length ∧ buf.take 3 = [0x49, 0x44, 0x33] then
        .MaybePrecededById3 (unsynch4 (bytesAt buf 6 4))
      else
        .MaybePrecededByJunk

/-! ## The seekable reader -/

/-- A seekable byte reader: immutable stream contents plus a cursor. -/
structure Reader where
  data : List Nat
  pos : Nat
deriving DecidableEq

namespace Reader

/-- Read up to `n` bytes from the cursor (the `std::io::copy` of a `take`
adapter into a fixed buffer), advancing the cursor by the bytes obtained. -/
def readUpTo (r : Reader) (n : Nat) : List Nat × Reader :=
  let bs := (r.data.drop r.pos).take n
  (bs, { r with pos := r.pos + bs.length })

/-- Seek to an absolute position (`SeekFrom::Start`). -/
def seekStart (r : Reader) (p : Nat) : Reader :=
  { r with pos := p }

/-- Seek relative to the cursor (`SeekFrom::Current`); seeking before the
start of the stream is an I/O error. -/
def seekCur (r : Reader) (off : Int) : Option Reader :=
  let q : Int := (r.pos : Int) + off
  if q < 0 then none else some { r with pos := q.toNat }

/-- Read exactly `n` bytes (`read_exact`); fails when the stream is exhausted. -/
def readExact (r : Reader) (n : Nat) : Option (List Nat × Reader) :=
  if r.pos + n ≤ r.data.length then
    some ((r.data.drop r.pos).take n, { r with pos := r.pos + n })
  else
    none

end Reader

/-! ## Frame-sync search and MPEG/AAC disambiguation -/

/-- Modelled from the spec: streaming search for the 11-bit MPEG/AAC frame
sync `1111 1111 111x` (`search_for_frame_sync`, not part of the source
snapshot).  Returns the index of the first byte of the first two-byte sync
pair found in the window. -/
def search_for_frame_sync : List Nat → Option Nat
  | a :: b :: rest =>
    if a = 0xFF ∧ b &&& 0xE0 = 0xE0 then some 0
    else (search_for_frame_sync (b :: rest)).map (· + 1)
  | _ => none

/-- The window of at most `maxJunk` bytes that the sync search may consume. -/
def syncWindow (r : Reader) (maxJunk : Nat) : List Nat :=
  (r.data.drop r.pos).take maxJunk

/-- Translation of `Probe::check_mpeg_or_aac`: search for a frame sync within
`maxJunk` bytes; when found, seek back two bytes, re-read the two sync bytes
and classify: second byte with bit 0x10 set and bits 0x06 clear is AAC ADTS,
anything else is MPEG audio.  When no sync is found, no file type results. -/
def check_mpeg_or_aac (r : Reader) (maxJunk : Nat) : Option (Option FileType × Reader) :=
  let window := syncWindow r maxJunk
  match search_for_frame_sync window with
  | none => some (none, { r with pos := r.pos + window.length })
  | some i =>
    let r1 : Reader := { r with pos := r.pos + (i + 2) }
    match r1.seekCur (-2) with
    | none => none
    | some r2 =>
      match r2.readExact 2 with
      | none => none
      | some (buf, r3) =>
        if buf.getD 1 0 &&& 0b10000 > 0 ∧ buf.getD 1 0 &&& 0b110 = 0 then
          some (some .Aac, r3)
        else
          some (some .Mpeg, r3)

/-! ## The Probe -/

/-- The parsing strictness mode (`ParsingMode`). -/
inductive ParsingMode
  | Strict
  | BestAttempt
  | Relaxed
deriving DecidableEq

/-- Options controlling how the library parses a file (`ParseOptions`). -/
structure ParseOptions where
  read_picture : Bool
  read_properties : Bool
  use_custom_resolvers : Bool
  parsing_mode : ParsingMode
  max_junk_bytes : Nat
  allocation_limit : Nat
deriving DecidableEq

namespace ParseOptions

/-- Default number of junk bytes to search (`DEFAULT_MAX_JUNK_BYTES`). -/
def DEFAULT_MAX_JUNK_BYTES : Nat := 1024

/-- Default allocation limit for any single tag item
(`DEFAULT_ALLOCATION_LIMIT`). -/
def DEFAULT_ALLOCATION_LIMIT : Nat := 16 * 1024 * 1024

/-- Translation of `ParseOptions::new` (also the `Default` implementation). -/
def new : ParseOptions :=
  { read_picture := true
    read_properties := true
    use_custom_resolvers := true
    parsing_mode := .BestAttempt
    max_junk_bytes := DEFAULT_MAX_JUNK_BYTES
    allocation_limit := DEFAULT_ALLOCATION_LIMIT }

/-- Translation of `ParseOptions::finalize`: publishes `allocation_limit`
into the thread-local allocation counter (modelled as the second component of
the returned pair) and hands the options back unchanged. -/
def finalize (o : ParseOptions) (_alloc : Nat) : ParseOptions × Nat :=
  (o, o.allocation_limit)

end ParseOptions

/-- A custom resolver's guess function: receives the sniff buffer, optionally
claims a file type.  The guess halves of the process-wide registry
(`CUSTOM_RESOLVERS`, not part of the source snapshot) are modelled as an
explicit list in registration order. -/
def run_resolvers (resolvers : List (List Nat → Option FileType)) (buf : List Nat) :
    Option FileType :=
  match resolvers with
  | [] => none
  | f :: rest =>
    match f buf with
    | some t => some t
    | none => run_resolvers rest buf

/-- The format-agnostic reader (`Probe`): a reader, optional parse options,
and an optional known file type. -/
structure Probe where
  inner : Reader
  options : Option ParseOptions
  f_ty : Option FileType
deriving DecidableEq

/-- First-some choice on options (Rust's `Option::or`). -/
def optionOr {α : Type} (a b : Option α) : Option α :=
  match a with
  | some x => some x
  | none => b

/-- Translation of `Probe::guess_inner`: remember the entry position, sniff up
to 36 bytes and seek back, classify; on `Determined` return the type; on
`MaybePrecededById3 n` seek forward `10 + n` bytes, peek 4 bytes
(zero-padded), re-match `"MAC"`, `"fLaC"`, `"MPCK"`/`"MP+"` for the inner
format, falling back to the MPEG/AAC sync probe, then restore the entry
position; on `MaybePrecededByJunk` run the sync probe and restore; on
`Unknown` consult the custom resolvers with the sniff buffer. -/
def guess_inner (resolvers : List (List Nat → Option FileType)) (r : Reader)
    (maxJunk : Nat) : Option (Option FileType × Reader) :=
  let startPos := r.pos
  let readRes := r.readUpTo 36
  let buf := readRes.fst
  let r2 := readRes.snd.seekStart startPos
  match from_buffer_inner buf with
  | .Determined ft => some (some ft, r2)
  | .MaybePrecededById3 id3Len =>
    match r2.seekCur ((10 + id3Len : Nat) : Int) with
    | none => none
    | some r3 =>
      let posAfterId3 := r3.pos
      let identRes := r3.readUpTo 4
      let ident := (identRes.fst ++ List.replicate 4 0).take 4
      let r5 := identRes.snd.seekStart posAfterId3
      let afterBlock : Option (Option FileType × Reader) :=
        if ident.take 3 = [0x4D, 0x41, 0x43] then some (some .Ape, r5)
        else if ident = [0x66, 0x4C, 0x61, 0x43] then some (some .Flac, r5)
        else if ident = [0x4D, 0x50, 0x43, 0x4B] ∨ ident.take 3 = [0x4D, 0x50, 0x2B] then
          some (some .Mpc, r5)
        else check_mpeg_or_aac r5 maxJunk
      match afterBlock with
      | none => none
      | some (ftA, r6) => some (ftA, r6.seekStart startPos)
  | .MaybePrecededByJunk =>
    match check_mpeg_or_aac r2 maxJunk with
    | none => none
    | some (ret, r3) => some (ret, r3.seekStart startPos)
  | .Unknown => some (run_resolvers resolvers buf, r2)

/-- The junk window `guess_file_type` uses: the configured `max_junk_bytes`,
or the default when no options were configured. -/
def effMaxJunk (p : Probe) : Nat :=
  match p.options with
  | some o => o.max_junk_bytes
  | none => ParseOptions.DEFAULT_MAX_JUNK_BYTES

/-- Translation of `Probe::guess_file_type`: run `guess_inner` with the
configured (or default) junk window; on success replace the file type with
the guess, keeping the previous one when the guess produced nothing. -/
def guess_file_type (resolvers : List (List Nat → Option FileType)) (p : Probe) :
    Option Probe :=
  match guess_inner resolvers p.inner (effMaxJunk p) with
  | none => none
  | some (fTy, r') => some { inner := r', options := p.options, f_ty := optionOr fTy p.f_ty }

/-! ## Errors and the read dispatch -/

/-- The closed set of error kinds (`ErrorKind` / `LoftyError`). -/
inductive LoftyError
  | Io
  | UnknownFormat
  | UnsupportedTag
  | BadMagic
  | BadExtension
  | TextDecode
  | TooMuchData
  | SizeMismatch
  | NotAPicture
  | NotEnoughData
  | AtomMismatch
  | ChunkMismatch
  | Id3v2Err
  | OggPacketMalformed
  | FlacBlockMalformed
  | Mp4ParseOrdering
deriving DecidableEq

/-- Modelled from the spec: the sizes of the attacker-controlled allocations an
ID3v2.4 frame walk performs on a tag body (the frame reader is not part of the
source snapshot).  Each frame is a 4-byte id, a 32-bit synchsafe size and two
flag bytes; a frame whose second flag byte marks it encrypted (bit 0x04) is
materialized as opaque bytes after consuming the 1-byte encryption method and,
when bit 0x01 is set, the 4-byte data-length indicator.  A region shorter than
a frame header, or an all-zero frame id (padding), ends the walk. -/
def encrypted_alloc_sizes : Nat → List Nat → List Nat
  | 0, _ => []
  | fuel + 1, bytes =>
    if bytes.length < 10 then []
    else if bytes.take 4 = [0, 0, 0, 0] then []
    else
      let size := unsynch4 (bytesAt bytes 4 4)
      let flags2 := bytes.getD 9 0
      let here :=
        if flags2 &&& 0x4 ≠ 0 then
          [size - (1 + (if flags2 &&& 0x1 ≠ 0 then 4 else 0))]
        else []
      here ++ encrypted_alloc_sizes fuel (bytes.drop (10 + size))

/-- Extent of the leading ID3v2 tag an MPEG reader skips: the 10-byte header
plus the synchsafe length from bytes 6..10, or 0 when no tag leads. -/
def mpeg_tag_end (r : Reader) : Nat :=
  let data := r.data.drop r.pos
  if 10 ≤ data.length ∧ data.take 3 = [0x49, 0x44, 0x33] then
    10 + unsynch4 (bytesAt data 6 4)
  else 0

/-- The attacker-controlled allocation sizes of the leading ID3v2 tag's frame
walk for an MPEG stream. -/
def mpeg_alloc_sizes (r : Reader) : List Nat :=
  let data := r.data.drop r.pos
  let tagBody := bytesAt data 10 (mpeg_tag_end r - 10)
  encrypted_alloc_sizes tagBody.length tagBody

/-- Modelled from the spec: `MpegFile::read_from` (not part of the source
snapshot), restricted to what the spec pins down.  A leading ID3v2 tag
(synchsafe length from header bytes 6..10) is parsed; the allocation limit is
consulted before any frame-body allocation, failing with `TooMuchData` when an
encrypted frame's payload exceeds the thread-local limit.  When properties are
requested, a frame sync must be found after the tag within `max_junk_bytes`. -/
def mpeg_read_from (opts : ParseOptions) (limit : Nat) (r : Reader) :
    Except LoftyError Unit :=
  if (mpeg_alloc_sizes r).any (fun n => Nat.blt limit n) then .error .TooMuchData
  else if opts.read_properties then
    match search_for_frame_sync
        (((r.data.drop r.pos).drop (mpeg_tag_end r)).take opts.max_junk_bytes) with
    | some _ => .ok ()
    | none => .error .NotEnoughData
  else .ok ()

/-- Outcome of a successful `Probe::read`.  The container readers other than
the MPEG path exercised by the source's allocation-limit test are not part of
the source snapshot; per the spec's error taxonomy they never produce
`UnknownFormat`, and their results are abstracted as a dispatch token. -/
inductive ReadOutcome
  | mpegParsed
  | dispatched (ft : FileType)
  | custom (c : String)
deriving DecidableEq

/-- Translation of `Probe::read`: resolve the options — `finalize` (which
updates the thread-local allocation counter, the second component) only when
options were configured, the plain default otherwise — then switch on the file
type: no type fails with `UnknownFormat`; `Custom` with custom resolvers
disabled fails with `UnknownFormat`; every other type dispatches to its
container reader. -/
def Probe.read (p : Probe) (alloc : Nat) : Except LoftyError ReadOutcome × Nat :=
  let finalized :=
    match p.options with
    | some o => ParseOptions.finalize o alloc
    | none => (ParseOptions.new, alloc)
  let options := finalized.fst
  let alloc' := finalized.snd
  match p.f_ty with
  | none => (.error .UnknownFormat, alloc')
  | some ft =>
    match ft with
    | .Mpeg =>
      ((mpeg_read_from options alloc' p.inner).map fun _ => .mpegParsed, alloc')
    | .Custom c =>
      if options.use_custom_resolvers then (.ok (.custom c), alloc')
      else (.error .UnknownFormat, alloc')
    | other => (.ok (.dispatched other), alloc')

/-! ## The allocation-limit test's byte builders (`probe.rs` tests) -/

/-- Translation of the source test's `create_encrypted_frame`: an `SMTH`
frame header carrying the synchsafe length of `size + 5` content bytes, the
second flag byte `0b0000_0101` (encrypted, has data-length indicator), five
zero flag-data bytes and `size` zero payload bytes. -/
def create_encrypted_frame (size : Nat) : List Nat :=
  [0x53, 0x4D, 0x54, 0x48] ++ (synch_u32 (size + 5)).getD [0, 0, 0, 0] ++
    [0x00, 0b00000101] ++ List.replicate 5 0 ++ List.replicate size 0

/-- Translation of the source test's `create_fake_mp3`: an ID3v2.4 header
whose synchsafe length is `frame_size + 5 + 10`, the encrypted frame, and the
start of an MP3 frame. -/
def create_fake_mp3 (frameSize : Nat) : List Nat :=
  [0x49, 0x44, 0x33, 0x04, 0x00, 0x00] ++
    (synch_u32 (frameSize + 5 + 10)).getD [0, 0, 0, 0] ++
    create_encrypted_frame frameSize ++
    [0xFF, 0xFB, 0x50, 0xC4, 0x00, 0x03, 0xC0, 0x00, 0x01, 0xA4, 0x00, 0x00, 0x00,
      0x20, 0x00, 0x00, 0x34, 0x80, 0x00, 0x00, 0x04]

/-! ## The ID3v2 writer -/

/-- The outer ID3v2 tag flags (`Id3v2TagFlags`, with the restrictions feature
disabled as in the source's build). -/
structure Id3v2TagFlags where
  footer : Bool
  experimental : Bool
  crc : Bool
deriving DecidableEq

/-- A frame reference handed to the writer.  `create_items`' per-frame
serialization is not part of the source snapshot; each frame is modelled by
the bytes it emits (id + size + flag bits + processed body per the spec's
v2.4 frame layout), kept opaque here. -/
structure FrameRefBytes where
  bytes : List Nat
deriving DecidableEq

/-- The writer-side view of a tag (`Id3v2TagRef`): flags plus frames. -/
structure Id3v2TagRef where
  flags : Id3v2TagFlags
  frames : List FrameRefBytes
deriving DecidableEq

/-- Translation of `create_tag_header`: `"ID3"`, version 4 revision 0, the
flags byte (0x10 footer, 0x20 experimental, 0x40 extended header — present
exactly when `crc` is set, restrictions being compiled out), a zeroed size,
and, when the extended header is present, its 6 bytes: synchsafe size 6, one
flag byte count, zero flags (CRC emission is commented out in the source). -/
def create_tag_header (flags : Id3v2TagFlags) : List Nat :=
  let tagFlags :=
    (if flags.footer then 0x10 else 0) +
    (if flags.experimental then 0x20 else 0) +
    (if flags.crc then 0x40 else 0)
  [0x49, 0x44, 0x33, 4, 0, tagFlags, 0, 0, 0, 0] ++
    (if flags.crc then [0, 0, 0, 6, 1, 0] else [])

/-- Replace the four size bytes at offsets 6..10 of a serialized header. -/
def writeSizeAt6 (header : List Nat) (sizeBytes : List Nat) : List Nat :=
  header.take 6 ++ sizeBytes ++ header.drop 10

/-- Translation of `create_tag`: an empty frame iterator yields an empty tag;
otherwise emit the header, the frame items, write the synchsafe length of the
items at offset 6, and, when the footer flag is set, append `"3DI"` followed
by header bytes 3..10. -/
def create_tag (tag : Id3v2TagRef) : Except LoftyError (List Nat) :=
  if tag.frames = [] then .ok []
  else
    let header := create_tag_header tag.flags
    let items := tag.frames.flatMap FrameRefBytes.bytes
    match synch_u32 items.length with
    | none => .error .Id3v2Err
    | some sizeBytes =>
      let body := writeSizeAt6 header sizeBytes ++ items
      if tag.flags.footer then
        .ok (body ++ [0x33, 0x44, 0x49] ++ bytesAt (writeSizeAt6 header sizeBytes) 3 7)
      else
        .ok body

/-- Modelled from the spec: `find_id3v2` (not part of the source snapshot)
seeks past any ID3v2 block at the start of the stream; its end offset is the
10-byte header plus the synchsafe length from bytes 6..10, plus another 10
bytes when the header's footer bit (0x10) is set, and 0 when no tag starts
the stream. -/
def id3v2_block_len (data : List Nat) : Nat :=
  if 10 ≤ data.length ∧ data.take 3 = [0x49, 0x44, 0x33] then
    10 + unsynch4 (bytesAt data 6 4) +
      (if data.getD 5 0 &&& 0x10 ≠ 0 then 10 else 0)
  else 0

/-- A serialized `"ID3 "` chunk: id, size in the given byte order, the tag
bytes, and a pad byte when the size is odd. -/
def mkId3Chunk (e : Endian) (tagBytes : List Nat) : List Nat :=
  [0x49, 0x44, 0x33, 0x20] ++ encodeU32 e tagBytes.length ++ tagBytes ++
    (if tagBytes.length % 2 = 1 then [0] else [])

/-- Modelled from the spec: the chunk walk of `write_to_chunk_file` (not part
of the source snapshot).  Walk `(id, size, payload)` chunks (odd sizes imply a
pad byte), replace the first `"ID3 "` chunk by the freshly serialized one, or
append it when absent; truncated chunk headers or payloads are malformed. -/
def replace_id3_chunk (e : Endian) : Nat → List Nat → List Nat → Option (List Nat)
  | 0, chunks, tagBytes => if chunks = [] then some (mkId3Chunk e tagBytes) else none
  | fuel + 1, chunks, tagBytes =>
    if chunks = [] then some (mkId3Chunk e tagBytes)
    else if chunks.length < 8 then none
    else
      let size := decodeU32 e (bytesAt chunks 4 4)
      let padded := size + size % 2
      if chunks.length < 8 + padded then none
      else if chunks.take 4 = [0x49, 0x44, 0x33, 0x20] then
        some (mkId3Chunk e tagBytes ++ chunks.drop (8 + padded))
      else
        (replace_id3_chunk e fuel (chunks.drop (8 + padded)) tagBytes).map
          (fun r => chunks.take (8 + padded) ++ r)

/-- Modelled from the spec: `write_to_chunk_file` (not part of the source
snapshot).  Rewrite (or append) the dedicated `"ID3 "` chunk inside a
RIFF/FORM container and update the outer size field — in the byte order given
by the type parameter — to cover the form type plus all chunks. -/
def write_to_chunk_file (e : Endian) (file : List Nat) (tagBytes : List Nat) :
    Except LoftyError (List Nat) :=
  if file.length < 12 then .error .NotEnoughData
  else
    match replace_id3_chunk e (file.drop 12).length (file.drop 12) tagBytes with
    | none => .error .ChunkMismatch
    | some newChunks =>
      .ok (file.take 4 ++ encodeU32 e (4 + newChunks.length) ++ bytesAt file 8 4 ++ newChunks)

/-- Translation of `write_id3v2`: guess the file type from the content; for
APE and MP3 serialize the tag, locate any existing leading ID3v2 block via
`find_id3v2`, and splice the new block in front of the remaining payload; for
WAV clear the footer flag and delegate to the little-endian chunk-file writer;
for AIFF likewise with big-endian; anything else is an unsupported tag. -/
def write_id3v2 (resolvers : List (List Nat → Option FileType)) (file : List Nat)
    (tag : Id3v2TagRef) : Except LoftyError (List Nat) :=
  match guess_file_type resolvers { inner := ⟨file, 0⟩, options := none, f_ty := none } with
  | none => .error .Io
  | some probe =>
    match probe.f_ty with
    | some .Ape | some .Mpeg =>
      match create_tag tag with
      | .error e => .error e
      | .ok id3v2 => .ok (id3v2 ++ file.drop (id3v2_block_len file))
    | some .Wav =>
      match create_tag { tag with flags := { tag.flags with footer := false } } with
      | .error e => .error e
      | .ok tagBytes => write_to_chunk_file .little file tagBytes
    | some .Aiff =>
      match create_tag { tag with flags := { tag.flags with footer := false } } with
      | .error e => .error e
      | .ok tagBytes => write_to_chunk_file .big file tagBytes
    | _ => .error .UnsupportedTag

/-! ## Derived views and concrete example data -/

/-- The inner-format guess performed after traversing a leading ID3v2 block of
synchsafe length `n`: peek 4 (zero-padded) bytes `10 + n` into the stream,
match `"MAC"`, `"fLaC"`, `"MPCK"`/`"MP+"`, and otherwise fall back to the
MPEG/AAC sync probe from that offset. -/
def id3_inner_guess (r : Reader) (n mj : Nat) : Option (Option FileType) :=
  let r5 : Reader := ⟨r.data, r.pos + (10 + n)⟩
  let ident := ((r5.data.drop r5.pos).take 4 ++ List.replicate 4 0).take 4
  if ident.take 3 = [0x4D, 0x41, 0x43] then some (some .Ape)
  else if ident = [0x66, 0x4C, 0x61, 0x43] then some (some .Flac)
  else if ident = [0x4D, 0x50, 0x43, 0x4B] ∨ ident.take 3 = [0x4D, 0x50, 0x2B] then
    some (some .Mpc)
  else (check_mpeg_or_aac r5 mj).map Prod.fst

/-- The options `Probe::read` works with: the configured ones, or the default
when none were configured. -/
def effOptions (p : Probe) : ParseOptions :=
  match p.options with
  | some o => o
  | none => ParseOptions.new

/-- A 10-byte ID3v2 header declaring a zero-length tag. -/
def id3_prelude : List Nat :=
  [0x49, 0x44, 0x33, 3, 0, 0, 0, 0, 0, 0]

/-- An ID3v2 prelude followed by `"fLaC"` and a 34-byte STREAMINFO metadata
block (last-block bit set, type 0, big-endian length 34). -/
def flac_id3_example : List Nat :=
  id3_prelude ++ [0x66, 0x4C, 0x61, 0x43] ++ [0x80, 0, 0, 34] ++ List.replicate 34 0

/-- A sample tag with a single serialized `TIT2` frame and no flags set. -/
def sampleTag : Id3v2TagRef :=
  ⟨⟨false, false, false⟩, [⟨[0x54, 0x49, 0x54, 0x32, 0, 0, 0, 1, 0, 0, 0x41]⟩]⟩

/-- The source test's options: `allocation_limit(50).read_properties(false)`. -/
def opts_limit50 : ParseOptions :=
  { ParseOptions.new with allocation_limit := 50, read_properties := false }

/-- The source test's options for the default-limit run:
`read_properties(false)`. -/
def opts_default_noprops : ParseOptions :=
  { ParseOptions.new with read_properties := false }

/-- A minimal WAV container: `"RIFF"`, little-endian size 4, `"WAVE"`. -/
def wavExample : List Nat :=
  [0x52, 0x49, 0x46, 0x46, 4, 0, 0, 0, 0x57, 0x41, 0x56, 0x45]

/-- A minimal AIFF container: `"FORM"`, big-endian size 4, `"AIFF"`. -/
def aiffExample : List Nat :=
  [0x46, 0x4F, 0x52, 0x4D, 0, 0, 0, 4, 0x41, 0x49, 0x46, 0x46]

/-- The bytes `write_id3v2` produces for `wavExample` and `sampleTag`. -/
def wavExampleOut : List Nat :=
  match write_id3v2 [] wavExample sampleTag with
  | .ok o => o
  | .error _ => []

/-- The bytes `write_id3v2` produces for `aiffExample` and `sampleTag`. -/
def aiffExampleOut : List Nat :=
  match write_id3v2 [] aiffExample sampleTag with
  | .ok o => o
  | .error _ => []

/-! ## Helper lemmas -/

lemma seekCur_coe (r : Reader) (k : Nat) :
    r.seekCur (k : Int) = some ⟨r.data, r.pos + k⟩ := by
  unfold Reader.seekCur
  rw [if_neg (by omega)]
  have : ((r.pos : Int) + (k : Int)).toNat = r.pos + k := by omega
  simp [this]

lemma seekCur_neg_two (r : Reader) (h : 2 ≤ r.pos) :
    r.seekCur (-2) = some ⟨r.data, r.pos - 2⟩ := by
  unfold Reader.seekCur
  rw [if_neg (by omega)]
  have : ((r.pos : Int) + (-2)).toNat = r.pos - 2 := by omega
  simp [this]

lemma search_some_lt {l : List Nat} {i : Nat}
    (h : search_for_frame_sync l = some i) : i + 1 < l.length := by
  induction l generalizing i with
  | nil => simp [search_for_frame_sync] at h
  | cons a tl ih =>
    cases tl with
    | nil => simp [search_for_frame_sync] at h
    | cons b rest =>
      rw [search_for_frame_sync] at h
      by_cases hc : a = 0xFF ∧ b &&& 0xE0 = 0xE0
      · rw [if_pos hc] at h
        cases h
        simp
      · rw [if_neg hc] at h
        rw [Option.map_eq_some'] at h
        obtain ⟨j, hj, rfl⟩ := h
        have := ih hj
        simp only [List.length_cons] at this ⊢
        omega

lemma getD_take_drop (l : List Nat) (p m j : Nat)
    (h : j < ((l.drop p).take m).length) :
    ((l.drop p).take m).getD j 0 = l.getD (p + j) 0 := by
  rw [List.getD_eq_getElem?_getD, List.getD_eq_getElem?_getD]
  rw [List.length_take, List.length_drop] at h
  rw [List.getElem?_take, if_pos (by omega), List.getElem?_drop]

lemma syncWindow_length_le (r : Reader) (mj : Nat) :
    (syncWindow r mj).length ≤ r.data.length - r.pos := by
  simp only [syncWindow, List.length_take, List.length_drop]
  omega

lemma check_found (r : Reader) (mj i : Nat)
    (h : search_for_frame_sync (syncWindow r mj) = some i) :
    check_mpeg_or_aac r mj =
      some (some (if r.data.getD (r.pos + i + 1) 0 &&& 0b10000 > 0 ∧
          r.data.getD (r.pos + i + 1) 0 &&& 0b110 = 0
        then FileType.Aac else FileType.Mpeg), ⟨r.data, r.pos + i + 2⟩) := by
  have hlt : i + 1 < (syncWindow r mj).length := search_some_lt h
  have hle := syncWindow_length_le r mj
  have hlen : r.pos + i + 2 ≤ r.data.length := by omega
  have e1 : Reader.seekCur ⟨r.data, r.pos + (i + 2)⟩ (-2) = some ⟨r.data, r.pos + i⟩ := by
    have h2 : 2 ≤ (⟨r.data, r.pos + (i + 2)⟩ : Reader).pos := by
      show 2 ≤ r.pos + (i + 2)
      omega
    rw [seekCur_neg_two _ h2]
    simp
    omega
  have e2 : Reader.readExact ⟨r.data, r.pos + i⟩ 2 =
      some ((r.data.drop (r.pos + i)).take 2, ⟨r.data, r.pos + i + 2⟩) := by
    unfold Reader.readExact
    rw [if_pos (show r.pos + i + 2 ≤ r.data.length from hlen)]
  have hblen : 1 < ((r.data.drop (r.pos + i)).take 2).length := by
    rw [List.length_take, List.length_drop]
    omega
  have hbyte : ((r.data.drop (r.pos + i)).take 2).getD 1 0 = r.data.getD (r.pos + i + 1) 0 := by
    rw [getD_take_drop r.data (r.pos + i) 2 1 hblen]
  simp only [check_mpeg_or_aac, h, e1, e2]
  rw [hbyte]
  by_cases hc : r.data.getD (r.pos + i + 1) 0 &&& 0b10000 > 0 ∧
      r.data.getD (r.pos + i + 1) 0 &&& 0b110 = 0
  · rw [if_pos hc, if_pos hc]
  · rw [if_neg hc, if_neg hc]

lemma check_not_found (r : Reader) (mj : Nat)
    (h : search_for_frame_sync (syncWindow r mj) = none) :
    check_mpeg_or_aac r mj = some (none, ⟨r.data, r.pos + (syncWindow r mj).length⟩) := by
  simp only [check_mpeg_or_aac]
  simp only [h]

lemma check_data {r : Reader} {mj : Nat} {ft : Option FileType} {r' : Reader}
    (h : check_mpeg_or_aac r mj = some (ft, r')) : r'.data = r.data := by
  rcases hs : search_for_frame_sync (syncWindow r mj) with _ | i
  · rw [check_not_found r mj hs] at h
    cases h
    rfl
  · rw [check_found r mj i hs] at h
    cases h
    rfl

lemma guess_inner_restores {res : List (List Nat → Option FileType)} {r : Reader}
    {mj : Nat} {g : Option FileType} {r' : Reader}
    (h : guess_inner res r mj = some (g, r')) : r' = ⟨r.data, r.pos⟩ := by
  simp only [guess_inner, Reader.readUpTo, Reader.seekStart, seekCur_coe] at h
  split at h
  · simp only [Option.some.injEq, Prod.mk.injEq] at h
    exact h.2.symm
  · split at h
    · exact absurd h (by simp)
    · rename_i ftA r6 heq
      simp only [Option.some.injEq, Prod.mk.injEq] at h
      have hd : r6.data = r.data := by
        split_ifs at heq
        · cases heq; rfl
        · cases heq; rfl
        · cases heq; rfl
        · simpa using check_data heq
      rw [← h.2, hd]
  · split at h
    · exact absurd h (by simp)
    · rename_i ret r3 heq
      simp only [Option.some.injEq, Prod.mk.injEq] at h
      have hd : r3.data = r.data := by simpa using check_data heq
      rw [← h.2, hd]
  · simp only [Option.some.injEq, Prod.mk.injEq] at h
    exact h.2.symm

lemma optionOr_absorb {α : Type} (a b : Option α) :
    optionOr a (optionOr a b) = optionOr a b := by
  cases a <;> rfl

lemma map_eq_error {α β : Type} (f : α → β) (x : Except LoftyError α) (e : LoftyError) :
    Except.map f x = .error e ↔ x = .error e := by
  cases x <;> simp [Except.map]

lemma mpeg_no_unknown (o : ParseOptions) (l : Nat) (r : Reader) :
    mpeg_read_from o l r ≠ Except.error LoftyError.UnknownFormat := by
  intro h
  unfold mpeg_read_from at h
  split_ifs at h <;>
    first
      | (split at h <;> simp at h)
      | simp at h

lemma mpeg_fake60 (o : ParseOptions) (l : Nat) (ho : o.read_properties = false) :
    mpeg_read_from o l ⟨create_fake_mp3 60, 0⟩ =
      if l < 60 then .error .TooMuchData else .ok () := by
  unfold mpeg_read_from
  rw [show mpeg_alloc_sizes ⟨create_fake_mp3 60, 0⟩ = [60] from by decide]
  simp [ho, Nat.blt_eq]

lemma take4_append (a b : List Nat) (h : a.length = 4) : (a ++ b).take 4 = a := by
  rw [← h, List.take_left]

lemma drop4_append (a b : List Nat) (h : a.length = 4) : (a ++ b).drop 4 = b := by
  rw [← h, List.drop_left]

lemma chunk_out_size (e : Endian) (file tagBytes out : List Nat)
    (h : write_to_chunk_file e file tagBytes = .ok out) :
    bytesAt out 4 4 = encodeU32 e (out.length - 8) := by
  unfold write_to_chunk_file at h
  by_cases h12 : file.length < 12
  · rw [if_pos h12] at h
    exact absurd h (by simp)
  · rw [if_neg h12] at h
    rcases hrep : replace_id3_chunk e (file.drop 12).length (file.drop 12) tagBytes with _ | nc
    · rw [hrep] at h
      exact absurd h (by simp)
    · rw [hrep] at h
      simp only [Except.ok.injEq] at h
      subst h
      have hf4 : (file.take 4).length = 4 := by
        rw [List.length_take]
        omega
      have hb4 : (bytesAt file 8 4).length = 4 := by
        simp only [bytesAt, List.length_take, List.length_drop]
        omega
      have he4 : (encodeU32 e (4 + nc.length)).length = 4 := by
        cases e <;> rfl
      have hout : file.take 4 ++ encodeU32 e (4 + nc.length) ++ bytesAt file 8 4 ++ nc
          = file.take 4 ++ (encodeU32 e (4 + nc.length) ++ (bytesAt file 8 4 ++ nc)) := by
        simp [List.append_assoc]
      rw [bytesAt, hout, drop4_append _ _ hf4, take4_append _ _ he4]
      congr 1
      simp only [List.length_append, hf4, hb4, he4]
      omega

/-! ## Claim theorems -/

/-- C2: whenever a two-byte MPEG/AAC frame sync is found within at most
`max_junk_bytes`, `check_mpeg_or_aac` classifies the stream as AAC when the
second sync byte has bit 0x10 set and bits 0x06 clear and as MPEG otherwise
(in particular sync bytes FF F1 and FF F9 yield Aac, and FF FB and FF FA
yield Mpeg); when no frame sync is found within `max_junk_bytes`, detection
returns no file type. -/
theorem c2_mpeg_aac_disambiguation :
    (∀ (r : Reader) (mj i : Nat),
      search_for_frame_sync (syncWindow r mj) = some i →
      check_mpeg_or_aac r mj =
        some (some (if r.data.getD (r.pos + i + 1) 0 &&& 0b10000 > 0 ∧
            r.data.getD (r.pos + i + 1) 0 &&& 0b110 = 0
          then FileType.Aac else FileType.Mpeg), ⟨r.data, r.pos + i + 2⟩)) ∧
    (∀ (r : Reader) (mj : Nat),
      search_for_frame_sync (syncWindow r mj) = none →
      check_mpeg_or_aac r mj = some (none, ⟨r.data, r.pos + (syncWindow r mj).length⟩)) ∧
    check_mpeg_or_aac ⟨[0xFF, 0xF1], 0⟩ 1024 = some (some .Aac, ⟨[0xFF, 0xF1], 2⟩) ∧
    check_mpeg_or_aac ⟨[0xFF, 0xF9], 0⟩ 1024 = some (some .Aac, ⟨[0xFF, 0xF9], 2⟩) ∧
    check_mpeg_or_aac ⟨[0xFF, 0xFB], 0⟩ 1024 = some (some .Mpeg, ⟨[0xFF, 0xFB], 2⟩) ∧
    check_mpeg_or_aac ⟨[0xFF, 0xFA], 0⟩ 1024 = some (some .Mpeg, ⟨[0xFF, 0xFA], 2⟩) :=
  ⟨check_found, check_not_found, by decide, by decide, by decide, by decide⟩

/-- Witness for C2: the general clauses applied to a sync preceded by one
junk byte and to a window with no sync. -/
theorem c2_mpeg_aac_disambiguation_witness :
    check_mpeg_or_aac ⟨[0x00, 0xFF, 0xF1], 0⟩ 1024 =
      some (some .Aac, ⟨[0x00, 0xFF, 0xF1], 3⟩) ∧
    check_mpeg_or_aac ⟨[0x01, 0x02], 0⟩ 1024 = some (none, ⟨[0x01, 0x02], 2⟩) := by
  constructor
  · have h := c2_mpeg_aac_disambiguation.1 ⟨[0x00, 0xFF, 0xF1], 0⟩ 1024 1 (by decide)
    rw [h]
    decide
  · have h := c2_mpeg_aac_disambiguation.2.1 ⟨[0x01, 0x02], 0⟩ 1024 (by decide)
    rw [h]
    decide

/-- C3: for every seekable reader at any starting position, whenever
`guess_file_type` returns successfully — in every branch of the detection
algorithm — the reader's position (and contents) on return equal those at
entry. -/
theorem c3_position_restored :
    ∀ (res : List (List Nat → Option FileType)) (p p' : Probe),
      guess_file_type res p = some p' →
      p'.inner.pos = p.inner.pos ∧ p'.inner.data = p.inner.data := by
  intro res p p' h
  simp only [guess_file_type] at h
  rcases hg : guess_inner res p.inner (effMaxJunk p) with _ | ⟨fTy, r'⟩
  · rw [hg] at h
    exact absurd h (by simp)
  · rw [hg] at h
    cases h
    rw [guess_inner_restores hg]
    exact ⟨rfl, rfl⟩

/-- Witness for C3: a probe over a `"MAC"` stream starting at position 0. -/
theorem c3_position_restored_witness :
    (Probe.mk ⟨[0x4D, 0x41, 0x43], 0⟩ none (some .Ape)).inner.pos =
      (Probe.mk ⟨[0x4D, 0x41, 0x43], 0⟩ none none).inner.pos ∧
    (Probe.mk ⟨[0x4D, 0x41, 0x43], 0⟩ none (some .Ape)).inner.data =
      (Probe.mk ⟨[0x4D, 0x41, 0x43], 0⟩ none none).inner.data :=
  c3_position_restored [] _ _ (by decide)

/-- C9: `guess_file_type` is idempotent — a successful call followed by a
second call yields the same probe (same file type and same reader state). -/
theorem c9_guess_idempotent :
    ∀ (res : List (List Nat → Option FileType)) (p p' : Probe),
      guess_file_type res p = some p' → guess_file_type res p' = some p' := by
  intro res p p' h
  simp only [guess_file_type] at h ⊢
  rcases hg : guess_inner res p.inner (effMaxJunk p) with _ | ⟨fTy, r'⟩
  · rw [hg] at h
    exact absurd h (by simp)
  · rw [hg] at h
    have hr : r' = p.inner := by
      rw [guess_inner_restores hg]
    cases h
    subst hr
    have hmj : effMaxJunk (Probe.mk p.inner p.options (optionOr fTy p.f_ty)) =
        effMaxJunk p := rfl
    simp only [hmj, hg, optionOr_absorb]

/-- Witness for C9: a `"MAC"` probe guessed once and then again. -/
theorem c9_guess_idempotent_witness :
    guess_file_type [] ⟨⟨[0x4D, 0x41, 0x43], 0⟩, none, some .Ape⟩ =
      some ⟨⟨[0x4D, 0x41, 0x43], 0⟩, none, some .Ape⟩ :=
  c9_guess_idempotent [] ⟨⟨[0x4D, 0x41, 0x43], 0⟩, none, none⟩ _ (by decide)

/-- C10: when content-based detection finds no file type, a successful
`guess_file_type` leaves the probe's previously known file type unchanged
rather than clearing it. -/
theorem c10_keeps_previous_type :
    ∀ (res : List (List Nat → Option FileType)) (p : Probe) (r' : Reader),
      guess_inner res p.inner (effMaxJunk p) = some (none, r') →
      guess_file_type res p = some ⟨r', p.options, p.f_ty⟩ := by
  intro res p r' h
  simp only [guess_file_type, h]
  rfl

/-- Witness for C10: unrecognized content (no magic, no sync) keeps the
caller-set Wav type. -/
theorem c10_keeps_previous_type_witness :
    guess_file_type [] ⟨⟨[0, 1, 2], 0⟩, none, some FileType.Wav⟩ =
      some ⟨⟨[0, 1, 2], 0⟩, none, some FileType.Wav⟩ :=
  c10_keeps_previous_type [] ⟨⟨[0, 1, 2], 0⟩, none, some FileType.Wav⟩ ⟨[0, 1, 2], 0⟩
    (by decide)

/-- C4: a reader whose content begins with an ID3v2 tag of synchsafe length
`n` is probed by seeking `10 + n` bytes forward, peeking 4 bytes and
re-matching the magic table for the inner format (`"MAC "` yields Ape,
`"fLaC"` yields Flac, `"MPCK"` or `"MP+"` yields Mpc), falling back to the
MPEG/AAC sync probe when none match; in particular an ID3v2 prelude followed
by `"fLaC"` and a STREAMINFO block is detected as Flac. -/
theorem c4_id3_traversal :
    (∀ (res : List (List Nat → Option FileType)) (r : Reader) (n mj : Nat),
      from_buffer_inner ((r.data.drop r.pos).take 36) = .MaybePrecededById3 n →
      guess_inner res r mj =
        (id3_inner_guess r n mj).map (fun ft => (ft, ⟨r.data, r.pos⟩))) ∧
    guess_inner [] ⟨flac_id3_example, 0⟩ 1024 =
      some (some .Flac, ⟨flac_id3_example, 0⟩) ∧
    guess_inner [] ⟨id3_prelude ++ [0x4D, 0x41, 0x43, 0x20], 0⟩ 1024 =
      some (some .Ape, ⟨id3_prelude ++ [0x4D, 0x41, 0x43, 0x20], 0⟩) ∧
    guess_inner [] ⟨id3_prelude ++ [0x4D, 0x50, 0x43, 0x4B], 0⟩ 1024 =
      some (some .Mpc, ⟨id3_prelude ++ [0x4D, 0x50, 0x43, 0x4B], 0⟩) ∧
    guess_inner [] ⟨id3_prelude ++ [0x4D, 0x50, 0x2B, 0x07], 0⟩ 1024 =
      some (some .Mpc, ⟨id3_prelude ++ [0x4D, 0x50, 0x2B, 0x07], 0⟩) ∧
    guess_inner [] ⟨id3_prelude ++ [0xFF, 0xFB, 0x50, 0xC4], 0⟩ 1024 =
      some (some .Mpeg, ⟨id3_prelude ++ [0xFF, 0xFB, 0x50, 0xC4], 0⟩) := by
  refine ⟨?_, by decide, by decide, by decide, by decide, by decide⟩
  intro res r n mj h
  simp only [guess_inner, Reader.readUpTo, Reader.seekStart, seekCur_coe, h, id3_inner_guess]
  split_ifs
  · simp [Reader.seekStart]
  · simp [Reader.seekStart]
  · simp [Reader.seekStart]
  · rcases hc : check_mpeg_or_aac ⟨r.data, r.pos + (10 + n)⟩ mj with _ | ⟨ftA, r6⟩
    · simp [hc]
    · have hd : r6.data = r.data := by simpa using check_data hc
      simp [hc, hd, Reader.seekStart]

/-- Witness for C4: the general clause applied to an ID3v2 prelude followed
by unrecognized bytes. -/
theorem c4_id3_traversal_witness :
    guess_inner [] ⟨id3_prelude ++ [0x77, 0x77], 0⟩ 1024 =
      (id3_inner_guess ⟨id3_prelude ++ [0x77, 0x77], 0⟩ 0 1024).map
        (fun ft => (ft, ⟨id3_prelude ++ [0x77, 0x77], 0⟩)) :=
  c4_id3_traversal.1 [] ⟨id3_prelude ++ [0x77, 0x77], 0⟩ 0 1024 (by decide)

/-- C5 counterexample: a `read()` on a probe with no configured options
leaves the thread-local allocation counter untouched (here at 123), not set
to the default limit as the claim states. -/
theorem c5_counterexample :
    (Probe.read ⟨⟨[], 0⟩, none, none⟩ 123).snd = 123 ∧
    (Probe.read ⟨⟨[], 0⟩, none, none⟩ 123).snd ≠ ParseOptions.new.allocation_limit := by
  decide

/-- C5 (amended): `read()` updates the thread-local allocation counter via
`ParseOptions.finalize` at the start of the call — before any container
reader runs — to the configured `allocation_limit` when options were
configured; with no configured options the default options are used without
calling `finalize` and the counter is left unchanged. -/
theorem c5_finalize_on_read :
    ∀ (p : Probe) (alloc : Nat),
      (Probe.read p alloc).snd =
        match p.options with
        | some o => o.allocation_limit
        | none => alloc := by
  intro p alloc
  rcases p with ⟨inner, opts, fty⟩
  rcases opts with _ | o <;> rcases fty with _ | ft
  · rfl
  · cases ft <;> rfl
  · rfl
  · cases ft
    case Custom c =>
      simp [Probe.read, ParseOptions.finalize, apply_ite]
    all_goals rfl

/-- C6: for every MPEG file one of whose encrypted ID3v2 frames declares a
payload length exceeding the configured `allocation_limit`, `read()` fails
with `TooMuchData`; for every such file whose declared payload lengths all
fit under the limit (properties not requested), `read()` succeeds.  The fake
MP3's single encrypted `SMTH` frame declares exactly 60 payload bytes, so it
fails under `allocation_limit = 50`, succeeds under the default 16 MiB limit,
and in general fails exactly when the configured limit is below 60. -/
theorem c6_allocation_limit :
    (∀ (r : Reader) (o : ParseOptions) (alloc n : Nat),
      n ∈ mpeg_alloc_sizes r → o.allocation_limit < n →
      (Probe.read ⟨r, some o, some .Mpeg⟩ alloc).fst = .error .TooMuchData) ∧
    (∀ (r : Reader) (o : ParseOptions) (alloc : Nat),
      o.read_properties = false →
      (∀ n ∈ mpeg_alloc_sizes r, n ≤ o.allocation_limit) →
      (Probe.read ⟨r, some o, some .Mpeg⟩ alloc).fst = .ok .mpegParsed) ∧
    mpeg_alloc_sizes ⟨create_fake_mp3 60, 0⟩ = [60] ∧
    (Probe.read ⟨⟨create_fake_mp3 60, 0⟩, some opts_limit50, some .Mpeg⟩ 0).fst =
      .error .TooMuchData ∧
    (Probe.read ⟨⟨create_fake_mp3 60, 0⟩, some opts_default_noprops, some .Mpeg⟩ 0).fst =
      .ok .mpegParsed ∧
    ∀ l a : Nat,
      (Probe.read ⟨⟨create_fake_mp3 60, 0⟩,
          some { ParseOptions.new with allocation_limit := l, read_properties := false },
          some .Mpeg⟩ a).fst =
        if l < 60 then .error .TooMuchData else .ok .mpegParsed := by
  refine ⟨?_, ?_, by decide, by decide, by decide, ?_⟩
  · intro r o alloc n hn hlt
    have hany : (mpeg_alloc_sizes r).any (fun n => Nat.blt o.allocation_limit n) = true := by
      rw [List.any_eq_true]
      exact ⟨n, hn, by simpa [Nat.blt_eq] using hlt⟩
    have hm : mpeg_read_from o o.allocation_limit r = .error .TooMuchData := by
      unfold mpeg_read_from
      rw [if_pos hany]
    simp only [Probe.read, ParseOptions.finalize]
    simp [hm, Except.map]
  · intro r o alloc ho hall
    have hany : (mpeg_alloc_sizes r).any (fun n => Nat.blt o.allocation_limit n) = false := by
      rw [List.any_eq_false]
      intro x hx
      have := hall x hx
      simp [Nat.blt_eq]
      omega
    have hm : mpeg_read_from o o.allocation_limit r = .ok () := by
      unfold mpeg_read_from
      simp [hany, ho]
    simp only [Probe.read, ParseOptions.finalize]
    simp [hm, Except.map]
  · intro l a
    simp only [Probe.read, ParseOptions.finalize]
    rw [mpeg_fake60 _ l rfl]
    by_cases hl : l < 60
    · simp [hl, Except.map]
    · simp [hl, Except.map]

/-- Witness for C6: the general failure clause applied to the fake MP3 with
the declared 60-byte payload above the 50-byte limit, and the general success
clause applied to the same file under the default limit. -/
theorem c6_allocation_limit_witness :
    (Probe.read ⟨⟨create_fake_mp3 60, 0⟩, some opts_limit50, some .Mpeg⟩ 7).fst =
      .error .TooMuchData ∧
    (Probe.read ⟨⟨create_fake_mp3 60, 0⟩, some opts_default_noprops, some .Mpeg⟩ 7).fst =
      .ok .mpegParsed :=
  ⟨c6_allocation_limit.1 ⟨create_fake_mp3 60, 0⟩ opts_limit50 7 60 (by decide) (by decide),
   c6_allocation_limit.2.1 ⟨create_fake_mp3 60, 0⟩ opts_default_noprops 7 (by decide)
     (by decide)⟩

/-- C8: `read()` fails with `UnknownFormat` in exactly two configuration
cases — no known file type, or a `Custom` type with custom resolvers
disabled (returned as an error, not a panic). -/
theorem c8_unknown_format :
    ∀ (p : Probe) (alloc : Nat),
      (Probe.read p alloc).fst = .error .UnknownFormat ↔
        (p.f_ty = none ∨ ∃ c, p.f_ty = some (.Custom c) ∧
          (effOptions p).use_custom_resolvers = false) := by
  intro p alloc
  rcases p with ⟨inner, opts, fty⟩
  rcases opts with _ | o <;> rcases fty with _ | ft
  · simp [Probe.read, effOptions]
  · cases ft <;>
      simp [Probe.read, ParseOptions.finalize, effOptions, ParseOptions.new,
        map_eq_error, mpeg_no_unknown]
  · simp [Probe.read, effOptions]
  · cases ft
    case Custom c =>
      by_cases hu : o.use_custom_resolvers <;>
        simp [Probe.read, ParseOptions.finalize, effOptions, hu]
    all_goals
      simp [Probe.read, ParseOptions.finalize, effOptions, map_eq_error,
        mpeg_no_unknown]

/-- C1 counterexample: a file whose detected type is AAC (an ADTS stream
opening with sync bytes FF F1) is rejected by `write_id3v2` with
`UnsupportedTag` instead of receiving the ID3v2 block at the start of the
file as the claim states. -/
theorem c1_counterexample :
    (guess_file_type [] ⟨⟨[0xFF, 0xF1, 0x50, 0x80], 0⟩, none, none⟩).map Probe.f_ty =
      some (some .Aac) ∧
    write_id3v2 [] [0xFF, 0xF1, 0x50, 0x80] sampleTag = .error .UnsupportedTag := by
  decide

/-- C1 (amended): for every file whose detected type is MP3 or APE,
`write_id3v2` places the serialized ID3v2 block at the very start of the
file, splicing it in front of the payload that follows any existing leading
ID3v2 block; for every file whose detected type is not one of MP3, APE, WAV
or AIFF — including AAC — `write_id3v2` fails with `UnsupportedTag`. -/
theorem c1_write_dispatch :
    ∀ (res : List (List Nat → Option FileType)) (file : List Nat)
      (tag : Id3v2TagRef) (p : Probe),
      guess_file_type res ⟨⟨file, 0⟩, none, none⟩ = some p →
      ((p.f_ty = some .Mpeg ∨ p.f_ty = some .Ape) →
        write_id3v2 res file tag =
          (create_tag tag).map (fun b => b ++ file.drop (id3v2_block_len file))) ∧
      (p.f_ty ≠ some .Mpeg → p.f_ty ≠ some .Ape → p.f_ty ≠ some .Wav →
        p.f_ty ≠ some .Aiff →
        write_id3v2 res file tag = .error .UnsupportedTag) := by
  intro res file tag p h
  constructor
  · intro hft
    unfold write_id3v2
    simp only [h]
    rcases hft with hft | hft <;> simp only [hft] <;>
      rcases hc : create_tag tag with e | b <;> simp [hc, Except.map]
  · intro h1 h2 h3 h4
    unfold write_id3v2
    simp only [h]

/-- Witness for C1: an MP3 stream receives the tag block spliced at the
front. -/
theorem c1_write_dispatch_witness :
    write_id3v2 [] [0xFF, 0xFB, 0x50, 0xC4] sampleTag =
      (create_tag sampleTag).map
        (fun b => b ++ [0xFF, 0xFB, 0x50, 0xC4].drop
          (id3v2_block_len [0xFF, 0xFB, 0x50, 0xC4])) :=
  (c1_write_dispatch [] [0xFF, 0xFB, 0x50, 0xC4] sampleTag
    ⟨⟨[0xFF, 0xFB, 0x50, 0xC4], 0⟩, none, some .Mpeg⟩ (by decide)).1 (Or.inl rfl)

/-- C7: writing an Id3v2 tag into a WAV first clears the tag's footer flag
and delegates to the little-endian chunk-file writer, and any produced file
carries the outer RIFF size little-endian at bytes 4..8; for an AIFF the
footer is likewise cleared and the FORM size is big-endian. -/
theorem c7_chunk_endianness :
    ∀ (res : List (List Nat → Option FileType)) (file : List Nat)
      (tag : Id3v2TagRef) (p : Probe),
      guess_file_type res ⟨⟨file, 0⟩, none, none⟩ = some p →
      (p.f_ty = some .Wav →
        write_id3v2 res file tag =
          (create_tag { tag with flags := { tag.flags with footer := false } }).bind
            (write_to_chunk_file .little file) ∧
        ∀ out, write_id3v2 res file tag = .ok out →
          bytesAt out 4 4 = encodeU32 .little (out.length - 8)) ∧
      (p.f_ty = some .Aiff →
        write_id3v2 res file tag =
          (create_tag { tag with flags := { tag.flags with footer := false } }).bind
            (write_to_chunk_file .big file) ∧
        ∀ out, write_id3v2 res file tag = .ok out →
          bytesAt out 4 4 = encodeU32 .big (out.length - 8)) := by
  intro res file tag p h
  constructor
  · intro hft
    have heq : write_id3v2 res file tag =
        (create_tag { tag with flags := { tag.flags with footer := false } }).bind
          (write_to_chunk_file .little file) := by
      unfold write_id3v2
      simp only [h, hft]
      rcases hc : create_tag { tag with flags := { tag.flags with footer := false } }
        with e | b <;> simp [hc, Except.bind]
    refine ⟨heq, ?_⟩
    intro out hout
    rw [heq] at hout
    rcases hc : create_tag { tag with flags := { tag.flags with footer := false } }
      with e | b
    · rw [hc] at hout
      exact absurd hout (by simp [Except.bind])
    · rw [hc] at hout
      simp only [Except.bind] at hout
      exact chunk_out_size .little file b out hout
  · intro hft
    have heq : write_id3v2 res file tag =
        (create_tag { tag with flags := { tag.flags with footer := false } }).bind
          (write_to_chunk_file .big file) := by
      unfold write_id3v2
      simp only [h, hft]
      rcases hc : create_tag { tag with flags := { tag.flags with footer := false } }
        with e | b <;> simp [hc, Except.bind]
    refine ⟨heq, ?_⟩
    intro out hout
    rw [heq] at hout
    rcases hc : create_tag { tag with flags := { tag.flags with footer := false } }
      with e | b
    · rw [hc] at hout
      exact absurd hout (by simp [Except.bind])
    · rw [hc] at hout
      simp only [Except.bind] at hout
      exact chunk_out_size .big file b out hout

/-- Witness for C7: the minimal WAV and AIFF containers written with the
sample tag. -/
theorem c7_chunk_endianness_witness :
    (write_id3v2 [] wavExample sampleTag =
      (create_tag { sampleTag with
        flags := { sampleTag.flags with footer := false } }).bind
        (write_to_chunk_file .little wavExample)) ∧
    bytesAt wavExampleOut 4 4 = encodeU32 .little (wavExampleOut.length - 8) ∧
    (write_id3v2 [] aiffExample sampleTag =
      (create_tag { sampleTag with
        flags := { sampleTag.flags with footer := false } }).bind
        (write_to_chunk_file .big aiffExample)) ∧
    bytesAt aiffExampleOut 4 4 = encodeU32 .big (aiffExampleOut.length - 8) := by
  have hw := (c7_chunk_endianness [] wavExample sampleTag
    ⟨⟨wavExample, 0⟩, none, some .Wav⟩ (by decide)).1 rfl
  have ha := (c7_chunk_endianness [] aiffExample sampleTag
    ⟨⟨aiffExample, 0⟩, none, some .Aiff⟩ (by decide)).2 rfl
  exact ⟨hw.1, hw.2 wavExampleOut (by decide), ha.1, ha.2 aiffExampleOut (by decide)⟩

end Lofty